import Mathlib

/-!
Verification development for the load-generator core of the
`llm-serving-lab` repository.

The Python source under `src/loadgen/` is shallowly embedded here:

* floats are modelled as rationals (`ℚ`);
* machine integers and counts as `ℕ`;
* `None`-able fields as `Option`;
* exception paths as explicit outcome constructors, so functions that
  can raise return `Option` or take an outcome argument;
* the asynchronous streaming HTTP response is modelled as the list of
  already-parsed server-sent events (plus the wall-clock time at which
  each is processed), since the JSON/HTTP layer itself carries no
  algorithmic content.

Definition names follow the Python names (`LoadTestConfig`,
`RequestResult`, `LoadTestResults`, `get_percentile`, ...).
-/

/-- Result of a single API request (dataclass `RequestResult`,
`load_generator_v1.py` lines 19-30). -/
structure RequestResult where
  latency_ms : ℚ
  ttft_ms : Option ℚ
  prompt_tokens : ℕ
  completion_tokens : ℕ
  total_tokens : ℕ
  success : Bool
  error : Option String := none
  tokens_per_second : Option ℚ := none
deriving DecidableEq, Repr

/-- Aggregated results of a load test (dataclass `LoadTestResults`,
`load_generator_v1.py` lines 33-44). -/
structure LoadTestResults where
  total_requests : ℕ
  successful_requests : ℕ
  failed_requests : ℕ
  total_tokens : ℕ
  elapsed_time : ℚ
  latencies : List ℚ
  ttft_latencies : List ℚ
  generation_speeds : List ℚ
deriving DecidableEq, Repr

/-- Validated configuration (`LoadTestConfig`, `config.py` lines 23-114).
Only the validated fields are kept; loading from environment variables is
out of scope. -/
structure LoadTestConfig where
  url : String
  api_key : Option String
  timeout : ℚ
  model_name : String
  max_tokens : ℕ
  temperature : ℚ
  total_requests : ℕ
  concurrency : ℕ
  warmup_count : ℕ
  stream : Bool
deriving DecidableEq, Repr

/-- Python `s.startswith(p)`, computed structurally on the character
list. -/
def strStartsWith (s p : String) : Bool := p.data.isPrefixOf s.data

/-- Removal of leading whitespace characters. -/
def dropLeadingWs : List Char → List Char
  | [] => []
  | c :: cs => if c.isWhitespace then dropLeadingWs cs else c :: cs

/-- Python `s.strip()`: remove leading and trailing whitespace, computed
structurally on the character list. -/
def strTrim (s : String) : String :=
  ⟨dropLeadingWs ((dropLeadingWs s.data.reverse).reverse)⟩

/-- Construction of a `LoadTestConfig` with pydantic validation
(`config.py`): per-field constraints in declaration order (`url` format,
`timeout` in (0, 300], `model_name` non-blank, `max_tokens` in [1, 4096],
`temperature` in [0, 2], `total_requests ≥ 1`, `concurrency ≥ 1`), then
the `validate_concurrency` clamp and the `validate_stream` cross-field
checks.  `none` models a pydantic `ValidationError`; pydantic applies the
checks sequentially, which yields the same `Option` result as this single
conjunction. -/
def mkLoadTestConfig (url : String) (api_key : Option String) (timeout : ℚ)
    (model_name : String) (max_tokens : ℕ) (temperature : ℚ)
    (total_requests concurrency warmup_count : ℕ) (stream : Bool) :
    Option LoadTestConfig :=
  if (strStartsWith url "http://" = true ∨ strStartsWith url "https://" = true)
      ∧ (0 < timeout ∧ timeout ≤ 300)
      ∧ strTrim model_name ≠ ""
      ∧ (1 ≤ max_tokens ∧ max_tokens ≤ 4096)
      ∧ (0 ≤ temperature ∧ temperature ≤ 2)
      ∧ 1 ≤ total_requests
      ∧ 1 ≤ concurrency
      ∧ ¬ (stream = true ∧ timeout < 30)
      ∧ ¬ (stream = true ∧ max_tokens > 1000)
  then
    some { url := url, api_key := api_key, timeout := timeout,
           model_name := strTrim model_name, max_tokens := max_tokens,
           temperature := temperature, total_requests := total_requests,
           concurrency := if concurrency > total_requests then total_requests
                          else concurrency,
           warmup_count := warmup_count, stream := stream }
  else none

/-- Python `int()` truncation toward zero on a rational. -/
def ratTrunc (q : ℚ) : ℤ := if 0 ≤ q then ⌊q⌋ else ⌈q⌉

/-- Python list indexing `xs[i]`: non-negative indices are direct,
negative indices count from the end, out of range raises (`none`). -/
def pyIndex (xs : List ℚ) (i : ℤ) : Option ℚ :=
  if 0 ≤ i then
    if i < (xs.length : ℤ) then some (xs.getD i.toNat 0) else none
  else
    if 0 ≤ (xs.length : ℤ) + i then
      some (xs.getD ((xs.length : ℤ) + i).toNat 0)
    else none

/-- Insertion of an element into a sorted rational list. -/
def insertSorted (x : ℚ) : List ℚ → List ℚ
  | [] => [x]
  | y :: ys => if x ≤ y then x :: y :: ys else y :: insertSorted x ys

/-- Python `sorted(xs)` on rationals: the sorted copy of the list.
(For numeric values a stable sort and any correct sort produce the same
list, so insertion sort is an exact model.) -/
def sortedCopy : List ℚ → List ℚ
  | [] => []
  | x :: xs => insertSorted x (sortedCopy xs)

/-- Python round-half-to-even of a rational to an integer. -/
def roundHalfEven (q : ℚ) : ℤ :=
  if q - ⌊q⌋ < 1 / 2 then ⌊q⌋
  else if 1 / 2 < q - ⌊q⌋ then ⌊q⌋ + 1
  else if Even ⌊q⌋ then ⌊q⌋ else ⌊q⌋ + 1

/-- Python `round(x, 1)`: round to one decimal place, ties to even. -/
def pyRound1 (q : ℚ) : ℚ := (roundHalfEven (10 * q) : ℚ) / 10

/-- Body of `get_percentile` after the empty-list guard and before the
final `round(value, 1)` (`load_generator_v1.py` lines 72-89): the
nearest-rank selection of a value from the sorted copy.  `none` models an
`IndexError`. -/
def percentileSelect (values : List ℚ) (percentile : ℚ) : Option ℚ :=
  let sorted := sortedCopy values
  let n : ℕ := sorted.length
  let rank : ℚ := percentile / 100 * n
  if rank = (ratTrunc rank : ℚ) ∧ 0 < rank then
    let index : ℤ := ratTrunc rank - 1
    if index + 1 < (n : ℤ) then
      match pyIndex sorted index, pyIndex sorted (index + 1) with
      | some a, some b => some ((a + b) / 2)
      | _, _ => none
    else pyIndex sorted index
  else
    let index : ℤ := min (ratTrunc rank) ((n : ℤ) - 1)
    pyIndex sorted index

/-- Common body of `get_percentile` and `get_ttft_percentile`: return 0
for an empty sequence, otherwise the nearest-rank selection rounded to one
decimal place. -/
def nearestRankPercentile (values : List ℚ) (percentile : ℚ) : Option ℚ :=
  if values = [] then some 0
  else (percentileSelect values percentile).map pyRound1

/-- `LoadTestResults.get_percentile` (`load_generator_v1.py` lines 67-91). -/
def get_percentile (r : LoadTestResults) (percentile : ℚ) : Option ℚ :=
  nearestRankPercentile r.latencies percentile

/-- `LoadTestResults.get_ttft_percentile` (`load_generator_v1.py` lines
93-117). -/
def get_ttft_percentile (r : LoadTestResults) (percentile : ℚ) : Option ℚ :=
  nearestRankPercentile r.ttft_latencies percentile

/-- The percentile selection rule exactly as the specification words it
(spec §4.3): `rank = p/100 * n` over the sorted copy; if `rank` is a
positive integer, average the values at indices `rank−1` and `rank`,
taking the value at `rank−1` alone when `rank−1` is the last index;
otherwise take the value at index `⌊rank⌋` clamped to `[0, n−1]`. -/
def claimSelect (values : List ℚ) (p : ℚ) : ℚ :=
  let sorted := sortedCopy values
  let n : ℕ := sorted.length
  let rank : ℚ := p / 100 * n
  if rank = (⌊rank⌋ : ℚ) ∧ 0 < rank then
    let r : ℕ := ⌊rank⌋.toNat
    if r - 1 = n - 1 then sorted.getD (r - 1) 0
    else (sorted.getD (r - 1) 0 + sorted.getD r 0) / 2
  else
    sorted.getD (min (max ⌊rank⌋ 0) ((n : ℤ) - 1)).toNat 0

/-- `LoadTestResults.success_rate` (`load_generator_v1.py` lines 46-51). -/
def success_rate (r : LoadTestResults) : ℚ :=
  if r.total_requests > 0 then (r.successful_requests : ℚ) / r.total_requests
  else 0

/-- `LoadTestResults.tokens_per_second` (`load_generator_v1.py` lines
53-58). -/
def tokens_per_second (r : LoadTestResults) : ℚ :=
  if r.elapsed_time > 0 then (r.total_tokens : ℚ) / r.elapsed_time else 0

/-- `LoadTestResults.requests_per_second` (`load_generator_v1.py` lines
60-65). -/
def requests_per_second (r : LoadTestResults) : ℚ :=
  if r.elapsed_time > 0 then (r.successful_requests : ℚ) / r.elapsed_time
  else 0

/-- The `usage` object of an OpenAI-style response; each count may be
absent (Python `dict.get` with default). -/
structure UsageData where
  prompt_tokens : Option ℕ
  completion_tokens : Option ℕ
  total_tokens : Option ℕ
deriving DecidableEq, Repr

/-- The payload of one parsed `data: <json>` server-sent event:
`choices[0].delta.content` when present, and the `usage` object when
present. -/
structure SSEData where
  content : Option String
  usage : Option UsageData
deriving DecidableEq, Repr

/-- One line of the streaming response, as the loop in `_make_request`
classifies it: not a `data:` line (skipped), the `data: [DONE]` sentinel,
a line whose JSON fails to parse (skipped), or a parsed payload. -/
inductive StreamEvent where
  | notData : StreamEvent
  | done : StreamEvent
  | malformed : StreamEvent
  | payload : SSEData → StreamEvent
deriving DecidableEq, Repr

/-- The kind of `httpx` exception raised during a request, matching the
three `except` clauses of `_make_request`. -/
inductive ExcKind where
  | timeout : ExcKind
  | httpStatus : ℕ → ExcKind
  | generic : ExcKind
deriving DecidableEq, Repr

/-- One step of the streaming response as observed by the loop: either an
event processed at wall-clock time `t`, or an exception raised at time
`t`. -/
inductive StreamItem where
  | ev : ℚ → StreamEvent → StreamItem
  | exc : ℚ → ExcKind → String → StreamItem
deriving DecidableEq, Repr

/-- The error string built by the `except` clauses of `_make_request`. -/
def errorString : ExcKind → String → String
  | ExcKind.timeout, m => "Timeout: " ++ m
  | ExcKind.httpStatus c, m => "HTTP " ++ toString c ++ ": " ++ m
  | ExcKind.generic, m => m

/-- The local variables of the streaming loop in `_make_request`
(`load_generator_v1.py` lines 170-221). -/
structure StreamState where
  first_token_time : Option ℚ
  generation_start_time : Option ℚ
  prompt_tokens : ℕ
  completion_tokens : ℕ
  ttft_time : Option ℚ
deriving DecidableEq, Repr

/-- Python truthiness of `choice["delta"].get("content")`: a present,
non-empty string. -/
def truthyContent (d : SSEData) : Option String :=
  match d.content with
  | some c => if c = "" then none else some c
  | none => none

/-- Processing of one parsed payload event at time `t`
(`load_generator_v1.py` lines 197-217): record TTFT on the first content,
add `max 1 (len // 4)` estimated tokens per content chunk, and let a
`usage` object override the counts. -/
def stepPayload (start t : ℚ) (st : StreamState) (d : SSEData) :
    StreamState :=
  let st1 :=
    match truthyContent d with
    | some c =>
      let st2 :=
        if st.first_token_time = none then
          { st with first_token_time := some t,
                    ttft_time := some ((t - start) * 1000),
                    generation_start_time := some t }
        else st
      { st2 with completion_tokens := st2.completion_tokens +
                   max 1 (c.length / 4) }
    | none => st
  match d.usage with
  | some u =>
    { st1 with prompt_tokens := u.prompt_tokens.getD 0,
               completion_tokens :=
                 u.completion_tokens.getD st1.completion_tokens }
  | none => st1

/-- Normal completion of the streaming loop at time `endT`
(`load_generator_v1.py` lines 223-244): compute the generation speed and
return a successful result. -/
def finishStream (start : ℚ) (st : StreamState) (endT : ℚ) : RequestResult :=
  let tps : ℚ :=
    match st.generation_start_time with
    | some g =>
      if g ≠ 0 ∧ 0 < st.completion_tokens then
        if 0 < endT - g then (st.completion_tokens : ℚ) / (endT - g) else 0
      else 0
    | none => 0
  { latency_ms := (endT - start) * 1000,
    ttft_ms := st.ttft_time,
    prompt_tokens := st.prompt_tokens,
    completion_tokens := st.completion_tokens,
    total_tokens := st.prompt_tokens + st.completion_tokens,
    success := true,
    error := none,
    tokens_per_second := some tps }

/-- The streaming loop of `_make_request` (`load_generator_v1.py` lines
186-244 plus the `except` clauses 271-303): run through the stream items,
finishing normally at `endT` on `[DONE]` or stream end, or building a
failed result when an exception is raised.  The failed result carries the
`ttft_time` accumulated so far, per the Python handlers. -/
def runStream (start : ℚ) (st : StreamState) :
    List StreamItem → ℚ → RequestResult
  | [], endT => finishStream start st endT
  | StreamItem.ev _ StreamEvent.notData :: rest, endT =>
      runStream start st rest endT
  | StreamItem.ev _ StreamEvent.malformed :: rest, endT =>
      runStream start st rest endT
  | StreamItem.ev _ StreamEvent.done :: _, endT => finishStream start st endT
  | StreamItem.ev t (StreamEvent.payload d) :: rest, endT =>
      runStream start (stepPayload start t st d) rest endT
  | StreamItem.exc t k msg :: _, _ =>
      { latency_ms := (t - start) * 1000,
        ttft_ms := st.ttft_time,
        prompt_tokens := 0,
        completion_tokens := 0,
        total_tokens := 0,
        success := false,
        error := some (errorString k msg),
        tokens_per_second := none }

/-- `_make_request` in streaming mode, given the request start time, the
observed stream items and the loop-exit time. -/
def makeRequestStream (start : ℚ) (items : List StreamItem) (endT : ℚ) :
    RequestResult :=
  runStream start
    { first_token_time := none, generation_start_time := none,
      prompt_tokens := 0, completion_tokens := 0, ttft_time := none }
    items endT

/-- Outcome of a non-streaming request: an exception raised at time `t`,
or a 2xx response received at time `endT` with an optional `usage`
object. -/
inductive NonStreamOutcome where
  | failure : ℚ → ExcKind → String → NonStreamOutcome
  | ok : ℚ → Option UsageData → NonStreamOutcome
deriving DecidableEq, Repr

/-- `_make_request` in non-streaming mode (`load_generator_v1.py` lines
245-269 plus the `except` clauses): `ttft_ms` is never populated, token
counts come from the `usage` object defaulting to 0, and the generation
speed is the end-to-end estimate. -/
def makeRequestNonStream (start : ℚ) (o : NonStreamOutcome) : RequestResult :=
  match o with
  | NonStreamOutcome.failure t k msg =>
    { latency_ms := (t - start) * 1000,
      ttft_ms := none,
      prompt_tokens := 0,
      completion_tokens := 0,
      total_tokens := 0,
      success := false,
      error := some (errorString k msg),
      tokens_per_second := none }
  | NonStreamOutcome.ok endT usage =>
    let u := usage.getD { prompt_tokens := none, completion_tokens := none,
                          total_tokens := none }
    let ct := u.completion_tokens.getD 0
    let tps : ℚ := if 0 < endT - start then (ct : ℚ) / (endT - start) else 0
    { latency_ms := (endT - start) * 1000,
      ttft_ms := none,
      prompt_tokens := u.prompt_tokens.getD 0,
      completion_tokens := ct,
      total_tokens := u.total_tokens.getD 0,
      success := true,
      error := none,
      tokens_per_second := some tps }

/-- The failed result `_run_load_test` builds (`load_generator_v1.py`
lines 361-371) for a task whose exception escaped the executor. -/
def taskExceptionResult (msg : String) : RequestResult :=
  { latency_ms := 0,
    ttft_ms := none,
    prompt_tokens := 0,
    completion_tokens := 0,
    total_tokens := 0,
    success := false,
    error := some ("Task exception: " ++ msg),
    tokens_per_second := none }

/-- The result-processing loop of `_run_load_test` (`load_generator_v1.py`
lines 350-371): `asyncio.gather(..., return_exceptions=True)` yields one
entry per task, either a `RequestResult` (`Sum.inl`) or an exception
(`Sum.inr`, carrying `str(result)`); exceptions are converted into failed
results. -/
def processGatherResults : List (RequestResult ⊕ String) → List RequestResult
  | [] => []
  | Sum.inl r :: rest => r :: processGatherResults rest
  | Sum.inr e :: rest => taskExceptionResult e :: processGatherResults rest

/-- `_run_load_test` (`load_generator_v1.py` lines 318-382), abstracted
over the cooperative scheduling: the semaphore bounds concurrency but does
not change which per-task outcomes `gather` returns, so the measured phase
is modelled by the list of per-task outcomes (one per created task). -/
def run_load_test (outcomes : List (RequestResult ⊕ String)) :
    List RequestResult :=
  processGatherResults outcomes

/-- `_aggregate_results` (`load_generator_v1.py` lines 384-415). -/
def aggregate_results (results : List RequestResult) (elapsed_time : ℚ) :
    LoadTestResults :=
  let successful_results := results.filter (fun r => r.success)
  let failed_results := results.filter (fun r => !r.success)
  { total_requests := results.length,
    successful_requests := successful_results.length,
    failed_requests := failed_results.length,
    total_tokens := (successful_results.map (fun r => r.total_tokens)).sum,
    elapsed_time := elapsed_time,
    latencies := successful_results.map (fun r => r.latency_ms),
    ttft_latencies := successful_results.filterMap (fun r => r.ttft_ms),
    generation_speeds :=
      successful_results.filterMap (fun r => r.tokens_per_second) }

/-- Sample results whose latency and TTFT sequences are the worked
example `[10, 20, 30, 40]` of spec §8. -/
def sampleResults : LoadTestResults :=
  { total_requests := 4, successful_requests := 4, failed_requests := 0,
    total_tokens := 0, elapsed_time := 1, latencies := [10, 20, 30, 40],
    ttft_latencies := [10, 20, 30, 40], generation_speeds := [] }

/-- Results with no recorded latencies or TTFT values. -/
def emptyResults : LoadTestResults :=
  { total_requests := 0, successful_requests := 0, failed_requests := 0,
    total_tokens := 0, elapsed_time := 0, latencies := [],
    ttft_latencies := [], generation_speeds := [] }

/-- Results whose latencies make the percentile rounding step visible:
the p50 of `[0, 1/4]` averages to `1/8`, which is not a multiple of
`1/10`. -/
def cexResults : LoadTestResults :=
  { total_requests := 2, successful_requests := 2, failed_requests := 0,
    total_tokens := 0, elapsed_time := 1, latencies := [0, 1/4],
    ttft_latencies := [], generation_speeds := [] }

/-- Results with a negative measured elapsed time, as the
`LoadTestResults` record admits (a float field). -/
def negElapsedResults : LoadTestResults :=
  { total_requests := 1, successful_requests := 1, failed_requests := 0,
    total_tokens := 5, elapsed_time := -1, latencies := [1],
    ttft_latencies := [], generation_speeds := [] }

/-- A successful result used as a concrete task outcome. -/
def okResult : RequestResult :=
  { latency_ms := 100, ttft_ms := none, prompt_tokens := 3,
    completion_tokens := 7, total_tokens := 10, success := true,
    error := none, tokens_per_second := some 70 }

/-! ### Helper lemmas -/

theorem insertSorted_length (x : ℚ) (xs : List ℚ) :
    (insertSorted x xs).length = xs.length + 1 := by
  induction xs with
  | nil => rfl
  | cons y ys ih =>
    simp only [insertSorted]
    split
    · simp
    · simp [ih]

theorem sortedCopy_length (xs : List ℚ) :
    (sortedCopy xs).length = xs.length := by
  induction xs with
  | nil => rfl
  | cons x t ih => simp [sortedCopy, insertSorted_length, ih]

theorem pyIndex_in_range (xs : List ℚ) (i : ℤ) (h0 : 0 ≤ i)
    (hlt : i < (xs.length : ℤ)) :
    pyIndex xs i = some (xs.getD i.toNat 0) := by
  simp [pyIndex, h0, hlt]

theorem percentileSelect_eq_claimSelect (values : List ℚ) (p : ℚ)
    (hne : values ≠ []) (hp0 : 0 ≤ p) (hp1 : p ≤ 100) :
    percentileSelect values p = some (claimSelect values p) := by
  rw [percentileSelect, claimSelect]
  set s := sortedCopy values with hs
  set n := s.length with hn
  have hn0 : 0 < n := by
    rw [hn, hs, sortedCopy_length]
    exact List.length_pos.mpr hne
  set rank : ℚ := p / 100 * n with hrank
  have hr0 : 0 ≤ rank := by
    exact mul_nonneg (div_nonneg hp0 (by norm_num)) (Nat.cast_nonneg n)
  have hrn : rank ≤ (n : ℚ) := by
    rw [hrank]
    calc p / 100 * n ≤ 1 * n := by
          apply mul_le_mul_of_nonneg_right _ (Nat.cast_nonneg n)
          rw [div_le_one (by norm_num : (0:ℚ) < 100)]
          exact hp1
      _ = n := one_mul _
  have htr : ratTrunc rank = ⌊rank⌋ := by simp [ratTrunc, hr0]
  have hfl0 : 0 ≤ ⌊rank⌋ := Int.floor_nonneg.mpr hr0
  have hfln : ⌊rank⌋ ≤ (n : ℤ) := by
    have := Int.floor_mono hrn
    rwa [Int.floor_natCast] at this
  rw [htr]
  by_cases hc : rank = (⌊rank⌋ : ℚ) ∧ 0 < rank
  · rw [if_pos hc, if_pos hc]
    obtain ⟨hEq, hPos⟩ := hc
    have hk1 : 1 ≤ ⌊rank⌋ := by
      have : (0 : ℚ) < (⌊rank⌋ : ℚ) := hEq ▸ hPos
      exact_mod_cast this
    by_cases hkn : ⌊rank⌋ - 1 + 1 < (n : ℤ)
    · rw [if_pos hkn]
      have hkn' : ⌊rank⌋ < (n : ℤ) := by omega
      rw [pyIndex_in_range s (⌊rank⌋ - 1) (by omega) (by omega),
          pyIndex_in_range s (⌊rank⌋ - 1 + 1) (by omega) (by omega)]
      have hne2 : ⌊rank⌋.toNat - 1 ≠ n - 1 := by omega
      rw [if_neg hne2]
      have e1 : (⌊rank⌋ - 1).toNat = ⌊rank⌋.toNat - 1 := by omega
      have e2 : (⌊rank⌋ - 1 + 1).toNat = ⌊rank⌋.toNat := by omega
      rw [e1, e2]
    · rw [if_neg hkn]
      have hkn' : ⌊rank⌋ = (n : ℤ) := by omega
      rw [pyIndex_in_range s (⌊rank⌋ - 1) (by omega) (by omega)]
      have he : ⌊rank⌋.toNat - 1 = n - 1 := by omega
      rw [if_pos he, he]
      have e1 : (⌊rank⌋ - 1).toNat = n - 1 := by omega
      rw [e1]
  · rw [if_neg hc, if_neg hc]
    have hmax : max ⌊rank⌋ 0 = ⌊rank⌋ := max_eq_left hfl0
    rw [hmax]
    have hge : 0 ≤ min ⌊rank⌋ ((n : ℤ) - 1) := by omega
    have hlt : min ⌊rank⌋ ((n : ℤ) - 1) < (n : ℤ) := by omega
    rw [pyIndex_in_range s _ hge hlt]

theorem roundHalfEven_abs_sub_le (q : ℚ) :
    |(roundHalfEven q : ℚ) - q| ≤ 1 / 2 := by
  have h1 : (⌊q⌋ : ℚ) ≤ q := Int.floor_le q
  have h2 : q < (⌊q⌋ : ℚ) + 1 := Int.lt_floor_add_one q
  rw [roundHalfEven]
  split_ifs with ha hb hcv <;> rw [abs_le] <;> push_cast <;>
    constructor <;> linarith

theorem pyRound1_abs_sub_le (q : ℚ) : |pyRound1 q - q| ≤ 1 / 20 := by
  have h := roundHalfEven_abs_sub_le (10 * q)
  rw [pyRound1]
  have e : (roundHalfEven (10 * q) : ℚ) / 10 - q
      = ((roundHalfEven (10 * q) : ℚ) - 10 * q) / 10 := by ring
  rw [e, abs_div]
  rw [abs_of_pos (by norm_num : (0:ℚ) < 10)]
  linarith

/-- C1, counterexample: on latencies `[0, 1/4]` the p50 rank is the
positive integer 1, so the claimed return value is the average
`(0 + 1/4)/2 = 1/8`; `get_percentile` actually returns that average
rounded to one decimal place, `1/10`, so the claim's description of the
return value is false. -/
theorem C1_percentile_counterexample :
    get_percentile cexResults 50 = some (1/10) ∧
    claimSelect cexResults.latencies 50 = 1/8 ∧
    get_percentile cexResults 50 ≠ some (claimSelect cexResults.latencies 50) := by
  have h1 : get_percentile cexResults 50 = some (1/10) := by
    norm_num [get_percentile, nearestRankPercentile, percentileSelect,
      sortedCopy, insertSorted, ratTrunc, pyIndex, cexResults, Int.toNat,
      pyRound1, roundHalfEven, Int.fract]
    exact List.cons_ne_nil _ _
  have h2 : claimSelect cexResults.latencies 50 = 1/8 := by
    norm_num [claimSelect, sortedCopy, insertSorted, cexResults, Int.toNat]
  refine ⟨h1, h2, ?_⟩
  rw [h1, h2]
  norm_num

/-- C1 (amended): for a non-empty sequence and `0 ≤ p ≤ 100`,
`get_percentile`/`get_ttft_percentile` return exactly the nearest-rank
selection described by the claim (positive-integer rank averages indices
`rank−1` and `rank`, last-index tie taken alone, otherwise index
`⌊rank⌋` clamped to `[0, n−1]`) — rounded to one decimal place; empty
sequences give 0; and on `[10, 20, 30, 40]` p50 is 25 and p95 is 40. -/
theorem C1_percentile_nearest_rank :
    (∀ (r : LoadTestResults) (p : ℚ), r.latencies = [] →
      get_percentile r p = some 0) ∧
    (∀ (r : LoadTestResults) (p : ℚ), r.ttft_latencies = [] →
      get_ttft_percentile r p = some 0) ∧
    (∀ (r : LoadTestResults) (p : ℚ), r.latencies ≠ [] → 0 ≤ p → p ≤ 100 →
      get_percentile r p = some (pyRound1 (claimSelect r.latencies p))) ∧
    (∀ (r : LoadTestResults) (p : ℚ), r.ttft_latencies ≠ [] → 0 ≤ p →
      p ≤ 100 →
      get_ttft_percentile r p = some (pyRound1 (claimSelect r.ttft_latencies p))) ∧
    get_percentile sampleResults 50 = some 25 ∧
    get_percentile sampleResults 95 = some 40 := by
  refine ⟨?_, ?_, ?_, ?_, ?_, ?_⟩
  · intro r p h
    simp [get_percentile, nearestRankPercentile, h]
  · intro r p h
    simp [get_ttft_percentile, nearestRankPercentile, h]
  · intro r p hne hp0 hp1
    rw [get_percentile, nearestRankPercentile, if_neg hne,
      percentileSelect_eq_claimSelect r.latencies p hne hp0 hp1,
      Option.map_some']
  · intro r p hne hp0 hp1
    rw [get_ttft_percentile, nearestRankPercentile, if_neg hne,
      percentileSelect_eq_claimSelect r.ttft_latencies p hne hp0 hp1,
      Option.map_some']
  · norm_num [get_percentile, nearestRankPercentile, percentileSelect,
      sortedCopy, insertSorted, ratTrunc, pyIndex, sampleResults, Int.toNat,
      pyRound1, roundHalfEven, Int.fract]
    exact List.cons_ne_nil _ _
  · norm_num [get_percentile, nearestRankPercentile, percentileSelect,
      sortedCopy, insertSorted, ratTrunc, pyIndex, sampleResults, Int.toNat,
      pyRound1, roundHalfEven, Int.fract]
    exact List.cons_ne_nil _ _

/-- C1, witness: the amended theorem instantiated at the worked example
and at empty results. -/
theorem C1_percentile_nearest_rank_witness :
    get_percentile sampleResults 50
      = some (pyRound1 (claimSelect sampleResults.latencies 50)) ∧
    get_percentile emptyResults 50 = some 0 :=
  ⟨C1_percentile_nearest_rank.2.2.1 sampleResults 50
      (by simp [sampleResults]) (by norm_num) (by norm_num),
   C1_percentile_nearest_rank.1 emptyResults 50 rfl⟩

/-- C9 (confirmed): whenever the nearest-rank selection of
`get_percentile` / `get_ttft_percentile` produces a value `v`, the method
returns `v` rounded to one decimal place, and that return value differs
from `v` by at most `1/20 = 0.05`. -/
theorem C9_percentile_rounding :
    (∀ (r : LoadTestResults) (p v : ℚ), r.latencies ≠ [] →
      percentileSelect r.latencies p = some v →
      get_percentile r p = some (pyRound1 v) ∧ |pyRound1 v - v| ≤ 1 / 20) ∧
    (∀ (r : LoadTestResults) (p v : ℚ), r.ttft_latencies ≠ [] →
      percentileSelect r.ttft_latencies p = some v →
      get_ttft_percentile r p = some (pyRound1 v) ∧
        |pyRound1 v - v| ≤ 1 / 20) := by
  constructor
  · intro r p v hne hv
    refine ⟨?_, pyRound1_abs_sub_le v⟩
    rw [get_percentile, nearestRankPercentile, if_neg hne, hv,
      Option.map_some']
  · intro r p v hne hv
    refine ⟨?_, pyRound1_abs_sub_le v⟩
    rw [get_ttft_percentile, nearestRankPercentile, if_neg hne, hv,
      Option.map_some']

/-- C9, witness: instantiated at the worked example, whose p50 selection
value is 25. -/
theorem C9_percentile_rounding_witness :
    get_percentile sampleResults 50 = some (pyRound1 25) ∧
    |pyRound1 25 - 25| ≤ 1 / 20 :=
  C9_percentile_rounding.1 sampleResults 50 25 (by simp [sampleResults])
    (by norm_num [percentileSelect, sortedCopy, insertSorted, ratTrunc,
      pyIndex, sampleResults, Int.toNat])

theorem sum_map_filter_success (results : List RequestResult) :
    ((results.filter (fun r => r.success)).map
        (fun r => r.total_tokens)).sum
      = (results.map (fun r => if r.success then r.total_tokens else 0)).sum := by
  induction results with
  | nil => rfl
  | cons a t ih =>
    by_cases h : a.success <;> simp [List.filter_cons, h, ih]

theorem filterMap_filter_success (g : RequestResult → Option ℚ)
    (results : List RequestResult) :
    (results.filter (fun r => r.success)).filterMap g
      = results.filterMap (fun r => if r.success then g r else none) := by
  induction results with
  | nil => rfl
  | cons a t ih =>
    by_cases h : a.success
    · rw [List.filter_cons_of_pos (by simp [h])]
      cases hg : g a <;>
        simp [List.filterMap_cons, h, hg, ih]
    · rw [List.filter_cons_of_neg (by simp [h])]
      simp [List.filterMap_cons, h, ih]

/-- C5 (confirmed): the aggregator is a pure reduction in which the total
is the input length and equals successes plus failures, token totals and
latency sequences are built from successful results only, and the
optional-field sequences keep exactly the present values of successful
results. -/
theorem C5_aggregate_results :
    ∀ (results : List RequestResult) (elapsed : ℚ),
      (aggregate_results results elapsed).total_requests = results.length ∧
      (aggregate_results results elapsed).successful_requests
          + (aggregate_results results elapsed).failed_requests
        = (aggregate_results results elapsed).total_requests ∧
      (aggregate_results results elapsed).successful_requests
        = (results.filter (fun r => r.success)).length ∧
      (aggregate_results results elapsed).total_tokens
        = (results.map (fun r => if r.success then r.total_tokens else 0)).sum ∧
      (aggregate_results results elapsed).latencies
        = (results.filter (fun r => r.success)).map (fun r => r.latency_ms) ∧
      (aggregate_results results elapsed).ttft_latencies
        = results.filterMap (fun r => if r.success then r.ttft_ms else none) ∧
      (aggregate_results results elapsed).generation_speeds
        = results.filterMap
            (fun r => if r.success then r.tokens_per_second else none) ∧
      (aggregate_results results elapsed).elapsed_time = elapsed := by
  intro results elapsed
  refine ⟨rfl, ?_, rfl, ?_, rfl, ?_, ?_, rfl⟩
  · show (results.filter (fun r => r.success)).length
        + (results.filter (fun r => !r.success)).length = results.length
    exact (@List.length_eq_length_filter_add RequestResult results
      (fun r => r.success)).symm
  · exact sum_map_filter_success results
  · exact filterMap_filter_success (fun r => r.ttft_ms) results
  · exact filterMap_filter_success (fun r => r.tokens_per_second) results

/-- C7, counterexample: with `elapsed_time = -1` and `total_tokens = 5`
the code returns 0 while the claimed formula
`total_tokens / elapsed_time` gives −5, so the claim's unconditional
formula is false; the code guards on `elapsed_time > 0`, not merely
`elapsed_time ≠ 0`. -/
theorem C7_derived_metrics_counterexample :
    tokens_per_second negElapsedResults = 0 ∧
    (negElapsedResults.total_tokens : ℚ) / negElapsedResults.elapsed_time
      = -5 ∧
    tokens_per_second negElapsedResults
      ≠ (negElapsedResults.total_tokens : ℚ) / negElapsedResults.elapsed_time := by
  norm_num [tokens_per_second, negElapsedResults]

/-- C7 (amended): `success_rate` is `successful/total` when `total > 0`
and 0 when `total = 0`; `tokens_per_second` and `requests_per_second` are
`total_tokens/elapsed_time` and `successful/elapsed_time` when
`elapsed_time > 0`, and 0 whenever `elapsed_time ≤ 0` (in particular when
it is 0). -/
theorem C7_derived_metrics :
    ∀ r : LoadTestResults,
      (r.total_requests = 0 → success_rate r = 0) ∧
      (0 < r.total_requests →
        success_rate r = (r.successful_requests : ℚ) / r.total_requests) ∧
      (r.elapsed_time ≤ 0 →
        tokens_per_second r = 0 ∧ requests_per_second r = 0) ∧
      (0 < r.elapsed_time →
        tokens_per_second r = (r.total_tokens : ℚ) / r.elapsed_time ∧
        requests_per_second r = (r.successful_requests : ℚ) / r.elapsed_time) := by
  intro r
  refine ⟨fun h => ?_, fun h => ?_, fun h => ⟨?_, ?_⟩, fun h => ⟨?_, ?_⟩⟩
  · simp [success_rate, h]
  · simp [success_rate, h]
  · simp [tokens_per_second, not_lt.mpr h]
  · simp [requests_per_second, not_lt.mpr h]
  · simp [tokens_per_second, h]
  · simp [requests_per_second, h]

/-- C7, witness: the amended theorem at concrete results with two
requests, one success, five tokens and two seconds elapsed. -/
theorem C7_derived_metrics_witness :
    success_rate
        { total_requests := 2, successful_requests := 1, failed_requests := 1,
          total_tokens := 5, elapsed_time := 2, latencies := [1],
          ttft_latencies := [], generation_speeds := [] } = (1 : ℚ) / 2 ∧
    tokens_per_second
        { total_requests := 2, successful_requests := 1, failed_requests := 1,
          total_tokens := 5, elapsed_time := 2, latencies := [1],
          ttft_latencies := [], generation_speeds := [] } = (5 : ℚ) / 2 := by
  constructor
  · exact (C7_derived_metrics _).2.1 (by norm_num)
  · exact ((C7_derived_metrics _).2.2.2 (by norm_num)).1

theorem processGatherResults_length
    (outcomes : List (RequestResult ⊕ String)) :
    (processGatherResults outcomes).length = outcomes.length := by
  induction outcomes with
  | nil => rfl
  | cons a t ih => cases a <;> simp [processGatherResults, ih]

theorem processGatherResults_mem_inr (e : String)
    (outcomes : List (RequestResult ⊕ String)) (h : Sum.inr e ∈ outcomes) :
    taskExceptionResult e ∈ processGatherResults outcomes := by
  induction outcomes with
  | nil => cases h
  | cons a t ih =>
    cases a with
    | inl r =>
      rcases List.mem_cons.mp h with h1 | h2
      · cases h1
      · exact List.mem_cons_of_mem _ (ih h2)
    | inr e2 =>
      rcases List.mem_cons.mp h with h1 | h2
      · cases h1
        exact List.mem_cons_self _ _
      · exact List.mem_cons_of_mem _ (ih h2)

/-- C2 (confirmed): for a measured phase of `N` tasks (one per request
attempt, any concurrency in `[1, N]`), the processed result sequence has
exactly `N` entries, and every task exception that `gather` returned is
present as a failed `RequestResult` carrying a "Task exception" error
string. -/
theorem C2_result_accounting :
    ∀ (N concurrency : ℕ) (outcomes : List (RequestResult ⊕ String)),
      outcomes.length = N → 1 ≤ concurrency → concurrency ≤ N →
      (run_load_test outcomes).length = N ∧
      ∀ e : String, Sum.inr e ∈ outcomes →
        taskExceptionResult e ∈ run_load_test outcomes ∧
        (taskExceptionResult e).success = false ∧
        (taskExceptionResult e).error = some ("Task exception: " ++ e) := by
  intro N concurrency outcomes hlen _hc1 _hc2
  refine ⟨by rw [run_load_test, processGatherResults_length, hlen], ?_⟩
  intro e he
  exact ⟨processGatherResults_mem_inr e outcomes he, rfl, rfl⟩

/-- C2, witness: two tasks at concurrency 1, one of which raised. -/
theorem C2_result_accounting_witness :
    (run_load_test [Sum.inl okResult, Sum.inr "boom"]).length = 2 ∧
    taskExceptionResult "boom"
      ∈ run_load_test [Sum.inl okResult, Sum.inr "boom"] ∧
    (taskExceptionResult "boom").error = some "Task exception: boom" := by
  have h := C2_result_accounting 2 1 [Sum.inl okResult, Sum.inr "boom"]
    rfl (by norm_num) (by norm_num)
  have h2 := h.2 "boom" (by simp)
  exact ⟨h.1, h2.1, h2.2.2⟩

theorem stepPayload_ttft_none (start t : ℚ) (st : StreamState) (d : SSEData)
    (h : truthyContent d = none) :
    (stepPayload start t st d).ttft_time = st.ttft_time := by
  rw [stepPayload, h]
  cases d.usage <;> rfl

theorem runStream_failed_zero_tokens (start : ℚ) (items : List StreamItem)
    (st : StreamState) (endT : ℚ)
    (h : (runStream start st items endT).success = false) :
    (runStream start st items endT).prompt_tokens = 0 ∧
    (runStream start st items endT).completion_tokens = 0 ∧
    (runStream start st items endT).total_tokens = 0 ∧
    (runStream start st items endT).error ≠ none := by
  induction items generalizing st with
  | nil => simp [runStream, finishStream] at h
  | cons a rest ih =>
    cases a with
    | ev t e =>
      cases e with
      | notData => exact ih st (by simpa [runStream] using h)
      | malformed => exact ih st (by simpa [runStream] using h)
      | done => simp [runStream, finishStream] at h
      | payload d =>
        exact ih (stepPayload start t st d) (by simpa [runStream] using h)
    | exc t k msg => simp [runStream]

theorem runStream_ttft_none (start : ℚ) (items : List StreamItem)
    (st : StreamState) (endT : ℚ) (h0 : st.ttft_time = none)
    (hnc : ∀ (t : ℚ) (d : SSEData),
      StreamItem.ev t (StreamEvent.payload d) ∈ items →
      truthyContent d = none) :
    (runStream start st items endT).ttft_ms = none := by
  induction items generalizing st with
  | nil => simpa [runStream, finishStream] using h0
  | cons a rest ih =>
    cases a with
    | ev t e =>
      cases e with
      | notData =>
        exact ih st h0 (fun t2 d2 hm => hnc t2 d2 (List.mem_cons_of_mem _ hm))
      | malformed =>
        exact ih st h0 (fun t2 d2 hm => hnc t2 d2 (List.mem_cons_of_mem _ hm))
      | done => simpa [runStream, finishStream] using h0
      | payload d =>
        have hd : truthyContent d = none := hnc t d (List.mem_cons_self _ _)
        refine ih (stepPayload start t st d) ?_
          (fun t2 d2 hm => hnc t2 d2 (List.mem_cons_of_mem _ hm))
        rw [stepPayload_ttft_none start t st d hd]
        exact h0
    | exc t k msg => simpa [runStream] using h0

/-- C3, counterexample: a streaming request that receives content
("Hi" at time 1) and then times out (at time 2) produces a failed result
that still carries the measured `ttft_ms = 1000`, so "ttft_ms is absent
for every failed result" is false on the code. -/
theorem C3_failed_result_counterexample :
    (makeRequestStream 0
        [StreamItem.ev 1 (StreamEvent.payload ⟨some "Hi", none⟩),
         StreamItem.exc 2 ExcKind.timeout "timed out"] 3).success = false ∧
    (makeRequestStream 0
        [StreamItem.ev 1 (StreamEvent.payload ⟨some "Hi", none⟩),
         StreamItem.exc 2 ExcKind.timeout "timed out"] 3).ttft_ms
      = some 1000 := by
  have ht : truthyContent ⟨some "Hi", none⟩ = some "Hi" := rfl
  norm_num [makeRequestStream, runStream, stepPayload, ht]

/-- C3 (amended): every failed result has `success = false`, an error
string and all token counts 0; `ttft_ms` is absent on any request whose
stream produced no content before it ended or failed (in particular a
timeout before the first token) and on every non-streaming request — but
a streaming request that fails after its first content chunk retains the
already-measured `ttft_ms`. -/
theorem C3_failed_result_fields :
    (∀ (start endT : ℚ) (items : List StreamItem),
      (makeRequestStream start items endT).success = false →
      (makeRequestStream start items endT).prompt_tokens = 0 ∧
      (makeRequestStream start items endT).completion_tokens = 0 ∧
      (makeRequestStream start items endT).total_tokens = 0 ∧
      (makeRequestStream start items endT).error ≠ none) ∧
    (∀ (start endT : ℚ) (items : List StreamItem),
      (∀ (t : ℚ) (d : SSEData),
        StreamItem.ev t (StreamEvent.payload d) ∈ items →
        truthyContent d = none) →
      (makeRequestStream start items endT).ttft_ms = none) ∧
    (∀ (start t : ℚ) (k : ExcKind) (msg : String),
      (makeRequestNonStream start (NonStreamOutcome.failure t k msg)).success
        = false ∧
      (makeRequestNonStream start
          (NonStreamOutcome.failure t k msg)).prompt_tokens = 0 ∧
      (makeRequestNonStream start
          (NonStreamOutcome.failure t k msg)).completion_tokens = 0 ∧
      (makeRequestNonStream start
          (NonStreamOutcome.failure t k msg)).total_tokens = 0) ∧
    (∀ (start : ℚ) (o : NonStreamOutcome),
      (makeRequestNonStream start o).ttft_ms = none) := by
  refine ⟨?_, ?_, ?_, ?_⟩
  · intro start endT items h
    exact runStream_failed_zero_tokens start items _ endT h
  · intro start endT items hnc
    exact runStream_ttft_none start items _ endT rfl hnc
  · intro start t k msg
    exact ⟨rfl, rfl, rfl, rfl⟩
  · intro start o
    cases o <;> rfl

/-- C3, witness: a stream that raises a timeout before any content gives
a failed result with zero tokens and absent `ttft_ms`. -/
theorem C3_failed_result_fields_witness :
    (makeRequestStream 0 [StreamItem.exc 2 ExcKind.timeout "timed out"] 3).total_tokens
      = 0 ∧
    (makeRequestStream 0 [StreamItem.exc 2 ExcKind.timeout "timed out"] 3).ttft_ms
      = none := by
  have h1 := C3_failed_result_fields.1 0 3
    [StreamItem.exc 2 ExcKind.timeout "timed out"] (by rfl)
  have h2 := C3_failed_result_fields.2.1 0 3
    [StreamItem.exc 2 ExcKind.timeout "timed out"] (by intro t d hm; simp at hm)
  exact ⟨h1.2.2.1, h2⟩

/-- C6 (confirmed): a stream consisting of one content event carrying
"Hi" (at a time strictly after the request start) followed by the done
sentinel yields a successful result with a positive `ttft_ms` and at
least one estimated completion token; and a final accounting event whose
`usage` reports an exact completion-token count overrides the estimate. -/
theorem C6_streaming_first_token :
    (∀ (s t1 t2 endT : ℚ), s < t1 →
      (makeRequestStream s
          [StreamItem.ev t1 (StreamEvent.payload ⟨some "Hi", none⟩),
           StreamItem.ev t2 StreamEvent.done] endT).success = true ∧
      1 ≤ (makeRequestStream s
          [StreamItem.ev t1 (StreamEvent.payload ⟨some "Hi", none⟩),
           StreamItem.ev t2 StreamEvent.done] endT).completion_tokens ∧
      ∃ v : ℚ, (makeRequestStream s
          [StreamItem.ev t1 (StreamEvent.payload ⟨some "Hi", none⟩),
           StreamItem.ev t2 StreamEvent.done] endT).ttft_ms = some v ∧
        0 < v) ∧
    (∀ (s t1 t2 t3 endT : ℚ) (pt ct : ℕ),
      (makeRequestStream s
          [StreamItem.ev t1 (StreamEvent.payload ⟨some "Hi", none⟩),
           StreamItem.ev t2 (StreamEvent.payload
             ⟨none, some ⟨some pt, some ct, none⟩⟩),
           StreamItem.ev t3 StreamEvent.done] endT).completion_tokens = ct) := by
  constructor
  · intro s t1 t2 endT hlt
    refine ⟨rfl, ?_, (t1 - s) * 1000, rfl, ?_⟩
    · have ht : truthyContent ⟨some "Hi", none⟩ = some "Hi" := rfl
      simp only [makeRequestStream, runStream, stepPayload, ht,
        finishStream, if_true]
      omega
    · have : 0 < t1 - s := by linarith
      positivity
  · intro s t1 t2 t3 endT pt ct
    rfl

/-- C6, witness: the theorem at start time 0 with the first token at
time 1 and usage reporting 42 completion tokens. -/
theorem C6_streaming_first_token_witness :
    (makeRequestStream 0
        [StreamItem.ev 1 (StreamEvent.payload ⟨some "Hi", none⟩),
         StreamItem.ev 2 StreamEvent.done] 3).success = true ∧
    (makeRequestStream 0
        [StreamItem.ev 1 (StreamEvent.payload ⟨some "Hi", none⟩),
         StreamItem.ev 2 (StreamEvent.payload
           ⟨none, some ⟨some 5, some 42, none⟩⟩),
         StreamItem.ev 3 StreamEvent.done] 4).completion_tokens = 42 :=
  ⟨(C6_streaming_first_token.1 0 1 2 3 (by norm_num)).1,
   C6_streaming_first_token.2 0 1 2 3 4 5 42⟩



/-- C4 (confirmed): every accepted configuration satisfies
`concurrency ≤ total_requests` — an excessive requested concurrency is
clamped down, not rejected; constructing with `total_requests = 10` and
`concurrency = 50` yields effective concurrency 10. -/
theorem C4_concurrency_clamp :
    (∀ (url : String) (api_key : Option String) (timeout : ℚ)
       (model_name : String) (max_tokens : ℕ) (temperature : ℚ)
       (total_requests concurrency warmup_count : ℕ) (stream : Bool)
       (cfg : LoadTestConfig),
      mkLoadTestConfig url api_key timeout model_name max_tokens temperature
          total_requests concurrency warmup_count stream = some cfg →
      cfg.concurrency ≤ cfg.total_requests) ∧
    (∃ cfg : LoadTestConfig,
      mkLoadTestConfig "http://x" none 60 "mistral" 128 0 10 50 5 false
        = some cfg ∧
      cfg.concurrency = 10 ∧ cfg.total_requests = 10) := by
  constructor
  · intro url api_key timeout model_name max_tokens temperature
      total_requests concurrency warmup_count stream cfg h
    rw [mkLoadTestConfig] at h
    split at h
    · injection h with h
      subst h
      dsimp only
      split <;> omega
    · cases h
  · exact ⟨{ url := "http://x", api_key := none, timeout := 60,
             model_name := "mistral", max_tokens := 128, temperature := 0,
             total_requests := 10, concurrency := 10, warmup_count := 5,
             stream := false }, by decide, rfl, rfl⟩

/-- C4, witness: the general invariant applied to the concrete clamped
configuration. -/
theorem C4_concurrency_clamp_witness :
    ∃ cfg : LoadTestConfig,
      mkLoadTestConfig "http://x" none 60 "mistral" 128 0 10 50 5 false
        = some cfg ∧
      cfg.concurrency ≤ cfg.total_requests := by
  obtain ⟨cfg, hmk, h1, h2⟩ := C4_concurrency_clamp.2
  exact ⟨cfg, hmk, C4_concurrency_clamp.1 _ _ _ _ _ _ _ _ _ _ _ hmk⟩

/-- C8 (confirmed): with `stream = true`, construction fails whenever
`timeout < 30` or `max_tokens > 1000`; with `stream = false` those two
cross-field constraints are not applied — any configuration passing the
per-field checks is accepted even with `timeout < 30` or
`max_tokens > 1000`. -/
theorem C8_stream_validation :
    (∀ (url : String) (api_key : Option String) (timeout : ℚ)
       (model_name : String) (max_tokens : ℕ) (temperature : ℚ)
       (total_requests concurrency warmup_count : ℕ),
      timeout < 30 →
      mkLoadTestConfig url api_key timeout model_name max_tokens temperature
          total_requests concurrency warmup_count true = none) ∧
    (∀ (url : String) (api_key : Option String) (timeout : ℚ)
       (model_name : String) (max_tokens : ℕ) (temperature : ℚ)
       (total_requests concurrency warmup_count : ℕ),
      1000 < max_tokens →
      mkLoadTestConfig url api_key timeout model_name max_tokens temperature
          total_requests concurrency warmup_count true = none) ∧
    (∀ (url : String) (api_key : Option String) (timeout : ℚ)
       (model_name : String) (max_tokens : ℕ) (temperature : ℚ)
       (total_requests concurrency warmup_count : ℕ),
      (strStartsWith url "http://" = true ∨ strStartsWith url "https://" = true) →
      0 < timeout → timeout ≤ 300 → strTrim model_name ≠ "" →
      1 ≤ max_tokens → max_tokens ≤ 4096 → 0 ≤ temperature →
      temperature ≤ 2 → 1 ≤ total_requests → 1 ≤ concurrency →
      ∃ cfg : LoadTestConfig,
        mkLoadTestConfig url api_key timeout model_name max_tokens
            temperature total_requests concurrency warmup_count false
          = some cfg) := by
  refine ⟨?_, ?_, ?_⟩
  · intro url api_key timeout model_name max_tokens temperature
      total_requests concurrency warmup_count ht
    rw [mkLoadTestConfig, if_neg]
    intro hcj
    exact hcj.2.2.2.2.2.2.2.1 ⟨rfl, ht⟩
  · intro url api_key timeout model_name max_tokens temperature
      total_requests concurrency warmup_count hm
    rw [mkLoadTestConfig, if_neg]
    intro hcj
    exact hcj.2.2.2.2.2.2.2.2 ⟨rfl, hm⟩
  · intro url api_key timeout model_name max_tokens temperature
      total_requests concurrency warmup_count hu ht1 ht2 hmn hmt1 hmt2
      htp1 htp2 htr hc
    rw [mkLoadTestConfig, if_pos]
    · exact ⟨_, rfl⟩
    · refine ⟨hu, ⟨ht1, ht2⟩, hmn, ⟨hmt1, hmt2⟩, ⟨htp1, htp2⟩, htr, hc,
        ?_, ?_⟩
      · intro hcj
        exact Bool.noConfusion hcj.1
      · intro hcj
        exact Bool.noConfusion hcj.1

/-- C8, witness: a streaming configuration with a 5-second timeout is
rejected, while the same parameters with `stream = false` are accepted
even with `timeout = 5` and `max_tokens = 2000`. -/
theorem C8_stream_validation_witness :
    mkLoadTestConfig "http://x" none 5 "mistral" 128 0 50 1 5 true = none ∧
    ∃ cfg : LoadTestConfig,
      mkLoadTestConfig "http://x" none 5 "mistral" 2000 0 50 1 5 false
        = some cfg := by
  constructor
  · exact C8_stream_validation.1 "http://x" none 5 "mistral" 128 0 50 1 5
      (by norm_num)
  · exact C8_stream_validation.2.2 "http://x" none 5 "mistral" 2000 0 50 1 5
      (Or.inl (by decide)) (by norm_num) (by norm_num) (by decide)
      (by norm_num) (by norm_num) (by norm_num) (by norm_num) (by norm_num)
      (by norm_num)

/-- C10 (confirmed): construction rejects any `timeout > 300` and any
`max_tokens > 4096`, regardless of streaming mode. -/
theorem C10_upper_bounds :
    (∀ (url : String) (api_key : Option String) (timeout : ℚ)
       (model_name : String) (max_tokens : ℕ) (temperature : ℚ)
       (total_requests concurrency warmup_count : ℕ) (stream : Bool),
      300 < timeout →
      mkLoadTestConfig url api_key timeout model_name max_tokens temperature
          total_requests concurrency warmup_count stream = none) ∧
    (∀ (url : String) (api_key : Option String) (timeout : ℚ)
       (model_name : String) (max_tokens : ℕ) (temperature : ℚ)
       (total_requests concurrency warmup_count : ℕ) (stream : Bool),
      4096 < max_tokens →
      mkLoadTestConfig url api_key timeout model_name max_tokens temperature
          total_requests concurrency warmup_count stream = none) := by
  constructor
  · intro url api_key timeout model_name max_tokens temperature
      total_requests concurrency warmup_count stream ht
    rw [mkLoadTestConfig, if_neg]
    intro hcj
    exact absurd hcj.2.1.2 (by linarith)
  · intro url api_key timeout model_name max_tokens temperature
      total_requests concurrency warmup_count stream hm
    rw [mkLoadTestConfig, if_neg]
    intro hcj
    exact absurd hcj.2.2.2.1.2 (by omega)

/-- C10, witness: a 400-second timeout and a 5000-token limit are each
rejected. -/
theorem C10_upper_bounds_witness :
    mkLoadTestConfig "http://x" none 400 "mistral" 128 0 50 1 5 false
      = none ∧
    mkLoadTestConfig "http://x" none 60 "mistral" 5000 0 50 1 5 false
      = none :=
  ⟨C10_upper_bounds.1 "http://x" none 400 "mistral" 128 0 50 1 5 false
      (by norm_num),
   C10_upper_bounds.2 "http://x" none 60 "mistral" 5000 0 50 1 5 false
      (by norm_num)⟩
